import Mathlib

/-!
Verification of the browser-facing control layer of the
matrix-authentication-service repository: the typed route/URL abstraction
(crates/router/src/endpoints.rs), the post-authentication continuation
mechanism, and the browser-session/authentication lifecycle model
(crates/graphql/src/model/browser_sessions.rs).

Rust machine integers are modelled as Int with explicit range side
conditions where the i64 range matters; strings as String / List Char;
fallible operations as Option / Except.
-/

/-! ## Decimal rendering and parsing

Models Rust's Display and FromStr for i64, which the source uses for path
parameter substitution (a format call on an i64) and for the serde
attribute deserializing the continuation's data field from its decimal
string form. -/

/-- One decimal digit rendered as a character (48 is the code of the zero digit). -/
def digitChar (d : Nat) : Char := Char.ofNat (48 + d)

/-- Decimal rendering of a natural number, most significant digit first,
as Rust's Display for unsigned integers produces it. -/
def natRepr (n : Nat) : List Char :=
  if n = 0 then [Char.ofNat 48] else ((Nat.digits 10 n).map digitChar).reverse

/-- Decimal rendering of a signed integer: a leading minus sign (code 45)
for negative values, as Rust's Display for i64 produces it. -/
def intRepr (i : Int) : List Char :=
  if i < 0 then Char.ofNat 45 :: natRepr (-i).toNat else natRepr i.toNat

/-- The numeric value of a decimal digit character, none for non-digits. -/
def digitVal (c : Char) : Option Nat :=
  if 48 ≤ c.toNat ∧ c.toNat ≤ 57 then some (c.toNat - 48) else none

/-- Accumulating decimal parser over a character list, most significant
digit first; fails on the first non-digit character. -/
def parseNatCore (acc : Nat) : List Char → Option Nat
  | [] => some acc
  | c :: cs =>
    match digitVal c with
    | some d => parseNatCore (10 * acc + d) cs
    | none => none

/-- Decimal parsing of a natural number; the empty string is rejected. -/
def parseNat : List Char → Option Nat
  | [] => none
  | c :: cs => parseNatCore 0 (c :: cs)

/-- The i64 range check performed by Rust's FromStr for i64. -/
def i64Range (i : Int) : Prop := -(2 ^ 63) ≤ i ∧ i < 2 ^ 63

instance (i : Int) : Decidable (i64Range i) := by
  unfold i64Range; infer_instance

/-- Decimal parsing of a signed integer with the i64 range check, as
Rust's FromStr for i64 behaves: an optional leading minus sign, then
decimal digits, rejecting out-of-range values. -/
def parseInt (cs : List Char) : Option Int :=
  match cs with
  | [] => none
  | c :: rest =>
    (if c = Char.ofNat 45 then (parseNat rest).map (fun n => -(Int.ofNat n))
     else (parseNat (c :: rest)).map (fun n => Int.ofNat n)).bind
      (fun i => if i64Range i then some i else none)

theorem digitVal_digitChar : ∀ d : Nat, d < 10 → digitVal (digitChar d) = some d := by
  decide

theorem digitChar_range : ∀ d : Nat, d < 10 →
    48 ≤ (digitChar d).toNat ∧ (digitChar d).toNat ≤ 57 := by
  decide

theorem parseNatCore_append (acc : Nat) (xs ys : List Char) :
    parseNatCore acc (xs ++ ys) =
      match parseNatCore acc xs with
      | some a => parseNatCore a ys
      | none => none := by
  induction xs generalizing acc with
  | nil => rfl
  | cons c cs ih =>
    simp only [List.cons_append, parseNatCore]
    cases digitVal c with
    | none => rfl
    | some d => exact ih (10 * acc + d)

theorem parseNatCore_rev_digits (L : List Nat) (hL : ∀ d ∈ L, d < 10) (acc : Nat) :
    parseNatCore acc ((L.map digitChar).reverse) =
      some (acc * 10 ^ L.length + Nat.ofDigits 10 L) := by
  induction L generalizing acc with
  | nil => simp [parseNatCore, Nat.ofDigits_nil]
  | cons d L ih =>
    have hd : d < 10 := hL d (List.mem_cons_self d L)
    have hrest : ∀ x ∈ L, x < 10 := fun x hx => hL x (List.mem_cons_of_mem d hx)
    rw [List.map_cons, List.reverse_cons, parseNatCore_append, ih hrest acc]
    simp only [parseNatCore, digitVal_digitChar d hd, Nat.ofDigits_cons, List.length_cons]
    congr 1
    ring

theorem natRepr_ne_nil (n : Nat) : natRepr n ≠ [] := by
  unfold natRepr
  split
  · simp
  · next h =>
    simp only [ne_eq, List.reverse_eq_nil_iff, List.map_eq_nil_iff]
    exact Nat.digits_ne_nil_iff_ne_zero.mpr h

theorem natRepr_chars (n : Nat) : ∀ c ∈ natRepr n, 48 ≤ c.toNat ∧ c.toNat ≤ 57 := by
  intro c hc
  unfold natRepr at hc
  split at hc
  · rcases List.mem_singleton.mp hc with rfl
    decide
  · rw [List.mem_reverse] at hc
    rcases List.mem_map.mp hc with ⟨d, hd, rfl⟩
    exact digitChar_range d (Nat.digits_lt_base (by norm_num) hd)

theorem parseNat_natRepr (n : Nat) : parseNat (natRepr n) = some n := by
  by_cases h : n = 0
  · subst h; decide
  · have hL : ∀ d ∈ Nat.digits 10 n, d < 10 :=
      fun d hd => Nat.digits_lt_base (by norm_num) hd
    have hne := natRepr_ne_nil n
    rcases hcs : natRepr n with _ | ⟨c, cs⟩
    · exact absurd hcs hne
    · have : parseNatCore 0 (c :: cs) = some n := by
        rw [← hcs]
        unfold natRepr
        rw [if_neg h, parseNatCore_rev_digits (Nat.digits 10 n) hL 0]
        simp [Nat.ofDigits_digits]
      simpa [parseNat] using this

theorem natRepr_not_minus (n : Nat) : ∀ c ∈ natRepr n, c ≠ Char.ofNat 45 := by
  intro c hc heq
  have h := natRepr_chars n c hc
  have h45 : (Char.ofNat 45).toNat = 45 := by decide
  rw [heq, h45] at h
  omega

theorem natRepr_no_slash (n : Nat) : Char.ofNat 47 ∉ natRepr n := by
  intro hmem
  have h := natRepr_chars n _ hmem
  have h47 : (Char.ofNat 47).toNat = 47 := by decide
  rw [h47] at h
  omega

theorem intRepr_no_slash (i : Int) : Char.ofNat 47 ∉ intRepr i := by
  unfold intRepr
  split
  · intro hmem
    rcases List.mem_cons.mp hmem with h | h
    · exact absurd h (by decide)
    · exact natRepr_no_slash _ h
  · exact natRepr_no_slash _

theorem parseInt_intRepr (i : Int) (h : i64Range i) : parseInt (intRepr i) = some i := by
  rcases h with ⟨h1, h2⟩
  by_cases hneg : i < 0
  · have hrw : intRepr i = Char.ofNat 45 :: natRepr (-i).toNat := by
      unfold intRepr; rw [if_pos hneg]
    have htn : (Int.ofNat (-i).toNat) = -i := Int.toNat_of_nonneg (by omega)
    rw [hrw]
    simp only [parseInt, if_pos rfl, parseNat_natRepr, Option.map_some', htn, neg_neg,
      eq_self_iff_true, if_true, Option.some_bind]
    rw [if_pos (show i64Range i from ⟨h1, h2⟩)]
  · have hrepr : intRepr i = natRepr i.toNat := by
      unfold intRepr; rw [if_neg hneg]
    rcases hcs : natRepr i.toNat with _ | ⟨c, cs⟩
    · exact absurd hcs (natRepr_ne_nil _)
    · have hcmem : c ∈ natRepr i.toNat := by rw [hcs]; exact List.mem_cons_self c cs
      have hcne : c ≠ Char.ofNat 45 := natRepr_not_minus _ c hcmem
      have htn : (Int.ofNat i.toNat) = i := Int.toNat_of_nonneg (by omega)
      rw [hrepr, hcs]
      simp only [parseInt, if_neg hcne]
      rw [← hcs, parseNat_natRepr]
      simp only [Option.map_some', Option.some_bind, htn]
      rw [if_pos (show i64Range i from ⟨h1, h2⟩)]

/-! ## The Continuation Action and the route descriptors

Embedded from crates/router/src/endpoints.rs. The grant id is an i64 in
the source, modelled as Int; the i64 range side condition is carried where
the serialized round trip needs it. -/

/-- The PostAuthAction tagged union from endpoints.rs: what to do after an
interactive step completes. -/
inductive PostAuthAction
  | ContinueAuthorizationGrant (data : Int)
  | ChangePassword
  deriving DecidableEq

/-- PostAuthAction::continue_grant from endpoints.rs. -/
def PostAuthAction.continue_grant (data : Int) : PostAuthAction :=
  PostAuthAction.ContinueAuthorizationGrant data

/-- PATH constant of the OidcConfiguration simple route. -/
def OidcConfiguration.PATH : String := "/.well-known/openid-configuration"

/-- PATH constant of the Webfinger simple route. -/
def Webfinger.PATH : String := "/.well-known/webfinger"

/-- PATH constant of the ChangePasswordDiscovery simple route. -/
def ChangePasswordDiscovery.PATH : String := "/.well-known/change-password"

/-- PATH constant of the OAuth2Keys simple route. -/
def OAuth2Keys.PATH : String := "/oauth2/keys.json"

/-- PATH constant of the OidcUserinfo simple route. -/
def OidcUserinfo.PATH : String := "/oauth2/userinfo"

/-- PATH constant of the OAuth2Introspection simple route. -/
def OAuth2Introspection.PATH : String := "/oauth2/introspect"

/-- PATH constant of the OAuth2TokenEndpoint simple route. -/
def OAuth2TokenEndpoint.PATH : String := "/oauth2/token"

/-- PATH constant of the OAuth2RegistrationEndpoint simple route. -/
def OAuth2RegistrationEndpoint.PATH : String := "/oauth2/registration"

/-- PATH constant of the OAuth2AuthorizationEndpoint simple route. -/
def OAuth2AuthorizationEndpoint.PATH : String := "/authorize"

/-- PATH constant of the Index simple route. -/
def Index.PATH : String := "/"

/-- PATH constant of the Healthcheck simple route. -/
def Healthcheck.PATH : String := "/health"

/-- PATH constant of the Logout simple route. -/
def Logout.PATH : String := "/logout"

/-- PATH constant of the Account simple route. -/
def Account.PATH : String := "/account"

/-- PATH constant of the AccountPassword simple route. -/
def AccountPassword.PATH : String := "/account/password"

/-- PATH constant of the AccountEmails simple route. -/
def AccountEmails.PATH : String := "/account/emails"

/-- PATH constant of the CompatLogin simple route, as declared in the
source: it contains the literal placeholder segment for the client
version, which the route machinery never substitutes. -/
def CompatLogin.PATH : String := "/_matrix/client/:version/login"

/-- PATH constant of the CompatLogout simple route. -/
def CompatLogout.PATH : String := "/_matrix/client/:version/logout"

/-- All PATH constants declared through the SimpleRoute trait in
endpoints.rs, in declaration order. -/
def simpleRoutePaths : List String :=
  [OidcConfiguration.PATH, Webfinger.PATH, ChangePasswordDiscovery.PATH,
   OAuth2Keys.PATH, OidcUserinfo.PATH, OAuth2Introspection.PATH,
   OAuth2TokenEndpoint.PATH, OAuth2RegistrationEndpoint.PATH,
   OAuth2AuthorizationEndpoint.PATH, Index.PATH, Healthcheck.PATH,
   Logout.PATH, Account.PATH, AccountPassword.PATH, AccountEmails.PATH,
   CompatLogin.PATH, CompatLogout.PATH]

/-- VerifyEmail::path from endpoints.rs: the verification code is
substituted verbatim by a format call, with no percent-encoding. -/
def VerifyEmail.path (code : String) : String := "/verify/" ++ code

/-- ContinueAuthorizationGrant::path from endpoints.rs: the grant id is
substituted in its decimal form by a format call on the i64. -/
def ContinueAuthorizationGrant.path (grant_id : Int) : String :=
  "/authorize/" ++ String.mk (intRepr grant_id)

/-- Consent::path from endpoints.rs. -/
def Consent.path (grant_id : Int) : String :=
  "/consent/" ++ String.mk (intRepr grant_id)

/-- Modelled from the spec: the order-preserving key-value query rendering
(serde_urlencoded behaviour of the Route trait in crates/router/src/traits.rs,
which is not under src). -/
def renderQuery (q : List (String × String)) : String :=
  String.intercalate "&" (q.map (fun p => p.1 ++ "=" ++ p.2))

/-- Modelled from the spec: relative URL building from the Route trait in
crates/router/src/traits.rs (not under src) — the rendered path, with the
serialized query appended after a question mark only when a query payload
is present (section 4.1 of the spec). -/
def relativeUrl (path : String) (q : Option (List (String × String))) : String :=
  match q with
  | none => path
  | some kvs => path ++ "?" ++ renderQuery kvs

/-- PostAuthAction::go_next from endpoints.rs: the redirect target is the
relative URL of the chosen route; ContinueAuthorizationGrant and
AccountPassword both carry no query payload. -/
def PostAuthAction.go_next : PostAuthAction → String
  | PostAuthAction.ContinueAuthorizationGrant data =>
      relativeUrl (ContinueAuthorizationGrant.path data) none
  | PostAuthAction.ChangePassword => relativeUrl AccountPassword.PATH none

/-- The Login request context from endpoints.rs: an optional continuation. -/
structure Login where
  post_auth_action : Option PostAuthAction
  deriving DecidableEq

/-- The Reauth request context from endpoints.rs. -/
structure Reauth where
  post_auth_action : Option PostAuthAction
  deriving DecidableEq

/-- The Register request context from endpoints.rs. -/
structure Register where
  post_auth_action : Option PostAuthAction
  deriving DecidableEq

/-- Login::go_next from endpoints.rs. -/
def Login.go_next (l : Login) : String :=
  match l.post_auth_action with
  | some action => action.go_next
  | none => relativeUrl Index.PATH none

/-- Reauth::go_next from endpoints.rs. -/
def Reauth.go_next (r : Reauth) : String :=
  match r.post_auth_action with
  | some action => action.go_next
  | none => relativeUrl Index.PATH none

/-- Register::go_next from endpoints.rs. -/
def Register.go_next (r : Register) : String :=
  match r.post_auth_action with
  | some action => action.go_next
  | none => relativeUrl Index.PATH none

/-- Login::and_then from endpoints.rs. -/
def Login.and_then (action : PostAuthAction) : Login :=
  { post_auth_action := some action }

/-- Login::and_continue_grant from endpoints.rs. -/
def Login.and_continue_grant (data : Int) : Login :=
  { post_auth_action := some (PostAuthAction.continue_grant data) }

/-- The From conversion of an optional PostAuthAction into a Login. -/
def Login.fromOption (o : Option PostAuthAction) : Login :=
  { post_auth_action := o }

/-- The From conversion of an optional PostAuthAction into a Reauth. -/
def Reauth.fromOption (o : Option PostAuthAction) : Reauth :=
  { post_auth_action := o }

/-- The From conversion of an optional PostAuthAction into a Register. -/
def Register.fromOption (o : Option PostAuthAction) : Register :=
  { post_auth_action := o }

/-- The derived Default value of Login: the optional field defaults to none. -/
def Login.default : Login := { post_auth_action := none }

/-- The derived Default value of Reauth. -/
def Reauth.default : Reauth := { post_auth_action := none }

/-- The derived Default value of Register. -/
def Register.default : Register := { post_auth_action := none }

/-! ## Query serialization of the Continuation Action

The tag and field names come from the serde attributes on PostAuthAction
in endpoints.rs (tag next, snake_case variant names, the data field
deserialized from its decimal string form); the key-value query carrier
follows section 6 of the spec. -/

/-- Serialization of a PostAuthAction into query key-value pairs: the
discriminant key comes first, then the data field in decimal form. -/
def encodeQuery : PostAuthAction → List (String × String)
  | PostAuthAction.ContinueAuthorizationGrant data =>
      [("next", "continue_authorization_grant"), ("data", String.mk (intRepr data))]
  | PostAuthAction.ChangePassword => [("next", "change_password")]

/-- First value bound to a key in a query key-value list. -/
def lookupKey (q : List (String × String)) (k : String) : Option String :=
  (q.find? (fun p => p.1 == k)).map (fun p => p.2)

/-- Deserialization of a PostAuthAction from query key-value pairs:
returns none whenever the discriminant is missing or unknown, or the data
field is missing or not a decimal i64. -/
def decodePostAuthAction (q : List (String × String)) : Option PostAuthAction :=
  match lookupKey q "next" with
  | some s =>
    if s = "continue_authorization_grant" then
      match lookupKey q "data" with
      | some ds => (parseInt ds.data).map PostAuthAction.ContinueAuthorizationGrant
      | none => none
    else if s = "change_password" then some PostAuthAction.ChangePassword
    else none
  | none => none

/-- Modelled from the spec: Login query decoding as the enclosing request
handlers (not under src) consume it — an absent or unparsable continuation
degrades to the no-continuation value instead of failing (sections 4.1 and
7 of the spec). -/
def loginFromQuery (q : List (String × String)) : Login :=
  { post_auth_action := decodePostAuthAction q }

/-- Modelled from the spec: Reauth query decoding with the same
degrade-to-absent policy. -/
def reauthFromQuery (q : List (String × String)) : Reauth :=
  { post_auth_action := decodePostAuthAction q }

/-- Modelled from the spec: Register query decoding with the same
degrade-to-absent policy. -/
def registerFromQuery (q : List (String × String)) : Register :=
  { post_auth_action := decodePostAuthAction q }

/-- The range side condition under which a PostAuthAction is representable
with an i64 data field, as in the source. -/
def PostAuthAction.dataInRange : PostAuthAction → Prop
  | PostAuthAction.ContinueAuthorizationGrant d => i64Range d
  | PostAuthAction.ChangePassword => True

/-! ## Path segment analysis -/

/-- Split a character list into its slash-separated segments (47 is the
code of the slash character). -/
def splitSlash : List Char → List (List Char)
  | [] => [[]]
  | c :: rest =>
    if c = Char.ofNat 47 then [] :: splitSlash rest
    else
      match splitSlash rest with
      | s :: ss => (c :: s) :: ss
      | [] => [[c]]

/-- Whether some slash-separated segment starts with a colon (code 58),
the placeholder syntax the source's route templates use for path
parameters. -/
def hasPathParam (l : List Char) : Bool :=
  (splitSlash l).any (fun s =>
    match s with
    | c :: _ => c = Char.ofNat 58
    | [] => false)

/-! ## The browser session model

Embedded from crates/graphql/src/model/browser_sessions.rs. Timestamps
are modelled as Int. -/

/-- The session state enumeration exposed by the GraphQL layer. -/
inductive SessionState
  | Active
  | Finished
  deriving DecidableEq

/-- The read-side view of a browser session: creation time and the
optional termination time. -/
structure BrowserSession where
  created_at : Int
  finished_at : Option Int
  deriving DecidableEq

/-- BrowserSession::state from browser_sessions.rs: Finished when
finished_at is present, Active otherwise. -/
def BrowserSession.state (s : BrowserSession) : SessionState :=
  if s.finished_at.isSome then SessionState.Finished else SessionState.Active

/-- Modelled from the spec: the logout transition on a session
(section 3 — finished_at is set once, at logout, and never cleared; the
mutation itself lives in the storage layer, not under src). It is the only
state-changing operation on a session and is unavailable once finished_at
is set. -/
def BrowserSession.finish (s : BrowserSession) (t : Int) : Option BrowserSession :=
  match s.finished_at with
  | none => some { s with finished_at := some t }
  | some _ => none

/-- Outcomes of the three fallible repository interactions performed by
BrowserSession::last_authentication, supplied by the environment. -/
structure RepoEnv (A : Type) where
  acquire : Except String Unit
  get_last_authentication : Except String (Option A)
  cancel : Except String Unit

/-- BrowserSession::last_authentication from browser_sessions.rs, embedded
as explicit control flow over the repository outcomes: acquire the
repository, run the lookup, then cancel the unit of work, each early
question-mark return propagating the error. The boolean records whether
repo.cancel was invoked before returning. -/
def last_authentication {A : Type} (env : RepoEnv A) :
    Except String (Option A) × Bool :=
  match env.acquire with
  | Except.error e => (Except.error e, false)
  | Except.ok _ =>
    match env.get_last_authentication with
    | Except.error e => (Except.error e, false)
    | Except.ok v =>
      match env.cancel with
      | Except.error e => (Except.error e, true)
      | Except.ok _ => (Except.ok v, true)

/-- Modelled from the spec: the freshness policy of section 4.3 (the code
computing freshness is not under src) — a session is fresh when its most
recent Authentication event is within the configured maximum age of now,
and never fresh when it has no Authentication event. -/
def isFresh (max_age : Int) (last_auth : Option Int) (now : Int) : Bool :=
  match last_auth with
  | none => false
  | some t => now - t ≤ max_age

/-! ## Claims -/

/-- Claim C1: go_next on Login, Reauth and Register resolves to the Index
path when no continuation is present, to the authorize path carrying the
grant id in decimal form for ContinueAuthorizationGrant, and to the
account-password path for ChangePassword; the dispatch is a total pure
function of its argument. -/
theorem go_next_dispatch_total :
    (Login.go_next { post_auth_action := none } = "/")
  ∧ (Reauth.go_next { post_auth_action := none } = "/")
  ∧ (Register.go_next { post_auth_action := none } = "/")
  ∧ (∀ g : Int, Login.go_next
      { post_auth_action := some (PostAuthAction.ContinueAuthorizationGrant g) }
      = "/authorize/" ++ String.mk (intRepr g))
  ∧ (∀ g : Int, Reauth.go_next
      { post_auth_action := some (PostAuthAction.ContinueAuthorizationGrant g) }
      = "/authorize/" ++ String.mk (intRepr g))
  ∧ (∀ g : Int, Register.go_next
      { post_auth_action := some (PostAuthAction.ContinueAuthorizationGrant g) }
      = "/authorize/" ++ String.mk (intRepr g))
  ∧ (Login.go_next { post_auth_action := some PostAuthAction.ChangePassword }
      = "/account/password")
  ∧ (Reauth.go_next { post_auth_action := some PostAuthAction.ChangePassword }
      = "/account/password")
  ∧ (Register.go_next { post_auth_action := some PostAuthAction.ChangePassword }
      = "/account/password") :=
  ⟨rfl, rfl, rfl, fun _ => rfl, fun _ => rfl, fun _ => rfl, rfl, rfl, rfl⟩

/-- Claim C2: decoding the serialized query form of a Continuation Action
yields the action back, for both variants, for every i64 data value. -/
theorem postAuthAction_roundtrip (a : PostAuthAction) (h : a.dataInRange) :
    decodePostAuthAction (encodeQuery a) = some a := by
  cases a with
  | ChangePassword => decide
  | ContinueAuthorizationGrant d =>
    have hp : parseInt (intRepr d) = some d := parseInt_intRepr d h
    have hr : decodePostAuthAction
        (encodeQuery (PostAuthAction.ContinueAuthorizationGrant d))
        = (parseInt (intRepr d)).map PostAuthAction.ContinueAuthorizationGrant := rfl
    rw [hr, hp, Option.map_some']

/-- Witness for claim C2 at grant id 42 and at ChangePassword. -/
theorem postAuthAction_roundtrip_witness :
    decodePostAuthAction (encodeQuery (PostAuthAction.ContinueAuthorizationGrant 42))
      = some (PostAuthAction.ContinueAuthorizationGrant 42)
  ∧ decodePostAuthAction (encodeQuery PostAuthAction.ChangePassword)
      = some PostAuthAction.ChangePassword :=
  ⟨postAuthAction_roundtrip (PostAuthAction.ContinueAuthorizationGrant 42)
      (show i64Range 42 from ⟨by norm_num, by norm_num⟩),
   postAuthAction_roundtrip PostAuthAction.ChangePassword trivial⟩

/-- Counterexample to claim C3: the verification code is substituted
verbatim, so a code containing a slash produces extra path segments — the
rendered path for the code a/b has two segments after the verify prefix,
not one. -/
theorem verifyEmail_path_not_encoded_cex :
    VerifyEmail.path "a/b" = "/verify/a/b"
  ∧ (VerifyEmail.path "a/b").data.count (Char.ofNat 47) ≠ 2 :=
  ⟨rfl, by decide⟩

/-- Claim C3 as amended: path substitutes the parameter verbatim with no
percent-encoding, so the rendered path has exactly one segment after the
verify prefix only when the code itself contains no slash. -/
theorem verifyEmail_path_single_segment (code : String)
    (h : Char.ofNat 47 ∉ code.data) :
    VerifyEmail.path code = "/verify/" ++ code
  ∧ (VerifyEmail.path code).data.count (Char.ofNat 47) = 2 := by
  obtain ⟨l⟩ := code
  refine ⟨rfl, ?_⟩
  have hd : (VerifyEmail.path (String.mk l)).data = "/verify/".data ++ l := rfl
  rw [hd, List.count_append, List.count_eq_zero.mpr h]
  decide

/-- Witness for the amended claim C3 at a slash-free code. -/
theorem verifyEmail_path_single_segment_witness :
    VerifyEmail.path "abc" = "/verify/abc"
  ∧ (VerifyEmail.path "abc").data.count (Char.ofNat 47) = 2 :=
  verifyEmail_path_single_segment "abc" (by decide)

/-- Claim C4, evaluated at the failing input: when the repository is
acquired successfully and the lookup fails, last_authentication propagates
the lookup error without ever invoking cancel on the open unit of work —
the early question-mark return on the lookup skips the cancel call. -/
theorem last_authentication_lookup_error_skips_cancel :
    @last_authentication Unit
      { acquire := Except.ok (), get_last_authentication := Except.error "db",
        cancel := Except.ok () }
      = (Except.error "db", false) := rfl

/-- Claim C5: a session is Active exactly when finished_at is absent and
Finished exactly when it is present — the derivation computed by the
GraphQL layer — and the only lifecycle transition, finishing at logout,
leads to Finished and is unavailable once the session is Finished. -/
theorem browserSession_state_derivation :
    (∀ s : BrowserSession, s.state = SessionState.Active ↔ s.finished_at = none)
  ∧ (∀ s : BrowserSession, s.state = SessionState.Finished ↔ s.finished_at ≠ none)
  ∧ (∀ (s : BrowserSession) (t : Int) (s' : BrowserSession),
      s.finish t = some s' → s'.state = SessionState.Finished)
  ∧ (∀ (s : BrowserSession) (t : Int),
      s.state = SessionState.Finished → s.finish t = none) := by
  have hstate : ∀ s : BrowserSession,
      s.state = SessionState.Active ↔ s.finished_at = none := by
    intro s
    rcases hf : s.finished_at with _ | t <;>
      simp [BrowserSession.state, hf]
  refine ⟨hstate, ?_, ?_, ?_⟩
  · intro s
    rcases hf : s.finished_at with _ | t <;>
      simp [BrowserSession.state, hf]
  · intro s t s' hfin
    rcases hf : s.finished_at with _ | u <;>
      simp [BrowserSession.finish, hf] at hfin
    subst hfin
    simp [BrowserSession.state]
  · intro s t hs
    rcases hf : s.finished_at with _ | u
    · exfalso
      simp [BrowserSession.state, hf] at hs
    · simp [BrowserSession.finish, hf]

/-- Witness for claim C5: a finished session reports Finished and cannot
be finished again. -/
theorem browserSession_state_derivation_witness :
    BrowserSession.state { created_at := 0, finished_at := some 5 } = SessionState.Finished
  ∧ BrowserSession.finish { created_at := 0, finished_at := some 5 } 9 = none :=
  ⟨(browserSession_state_derivation.2.1 { created_at := 0, finished_at := some 5 }).mpr
      (by simp),
   browserSession_state_derivation.2.2.2 { created_at := 0, finished_at := some 5 } 9
      ((browserSession_state_derivation.2.1 { created_at := 0, finished_at := some 5 }).mpr
        (by simp))⟩

/-- Claim C6: with a most recent Authentication event at time T the
session is fresh at T and at every instant before the maximum age has
elapsed, not fresh at any instant after it, and a session with no
Authentication event is never fresh. -/
theorem freshness_monotone (max_age T : Int) (h : 0 ≤ max_age) :
    isFresh max_age (some T) T = true
  ∧ (∀ now : Int, now < T + max_age → isFresh max_age (some T) now = true)
  ∧ (∀ now : Int, T + max_age < now → isFresh max_age (some T) now = false)
  ∧ (∀ (m now : Int), isFresh m none now = false) := by
  refine ⟨?_, ?_, ?_, fun m now => rfl⟩
  · simp only [isFresh, decide_eq_true_eq]
    omega
  · intro now hlt
    simp only [isFresh, decide_eq_true_eq]
    omega
  · intro now hgt
    simp only [isFresh, decide_eq_false_iff_not]
    omega

/-- Witness for claim C6 at maximum age 10 and authentication time 0. -/
theorem freshness_monotone_witness :
    isFresh 10 (some 0) 0 = true
  ∧ isFresh 10 (some 0) 9 = true
  ∧ isFresh 10 (some 0) 15 = false
  ∧ isFresh 10 none 3 = false :=
  ⟨(freshness_monotone 10 0 (by norm_num)).1,
   (freshness_monotone 10 0 (by norm_num)).2.1 9 (by norm_num),
   (freshness_monotone 10 0 (by norm_num)).2.2.1 15 (by norm_num),
   (freshness_monotone 10 0 (by norm_num)).2.2.2 10 3⟩

/-- Claim C7: a query whose continuation payload is absent, carries an
unknown discriminant, or has a missing or unparsable data field decodes to
no continuation, and the Login, Reauth and Register values built from a
failed decode dispatch to the Index path — the request never fails. -/
theorem malformed_query_no_continuation :
    (∀ q, lookupKey q "next" = none → decodePostAuthAction q = none)
  ∧ (∀ q s, lookupKey q "next" = some s →
      s ≠ "continue_authorization_grant" → s ≠ "change_password" →
      decodePostAuthAction q = none)
  ∧ (∀ q, lookupKey q "next" = some "continue_authorization_grant" →
      lookupKey q "data" = none → decodePostAuthAction q = none)
  ∧ (∀ q ds, lookupKey q "next" = some "continue_authorization_grant" →
      lookupKey q "data" = some ds → parseInt ds.data = none →
      decodePostAuthAction q = none)
  ∧ (∀ q, decodePostAuthAction q = none →
      (loginFromQuery q).post_auth_action = none
    ∧ (loginFromQuery q).go_next = "/"
    ∧ (reauthFromQuery q).post_auth_action = none
    ∧ (reauthFromQuery q).go_next = "/"
    ∧ (registerFromQuery q).post_auth_action = none
    ∧ (registerFromQuery q).go_next = "/") := by
  refine ⟨?_, ?_, ?_, ?_, ?_⟩
  · intro q h
    simp [decodePostAuthAction, h]
  · intro q s h h1 h2
    simp [decodePostAuthAction, h, h1, h2]
  · intro q h hd
    simp [decodePostAuthAction, h, hd]
  · intro q ds h hd hp
    simp [decodePostAuthAction, h, hd, hp]
  · intro q h
    refine ⟨?_, ?_, ?_, ?_, ?_, ?_⟩ <;>
      simp [loginFromQuery, reauthFromQuery, registerFromQuery, h,
        Login.go_next, Reauth.go_next, Register.go_next, relativeUrl, Index.PATH]

/-- Witness for claim C7 at a query with an unknown discriminant. -/
theorem malformed_query_no_continuation_witness :
    decodePostAuthAction [("next", "bogus")] = none
  ∧ (loginFromQuery [("next", "bogus")]).go_next = "/" := by
  have h1 : lookupKey [("next", "bogus")] "next" = some "bogus" := rfl
  have h2 := malformed_query_no_continuation.2.1 [("next", "bogus")] "bogus" h1
    (by decide) (by decide)
  exact ⟨h2, (malformed_query_no_continuation.2.2.2.2 [("next", "bogus")] h2).2.1⟩

/-- Claim C8: the path rendered for a grant id is the authorize prefix
followed by the id's decimal form, and it contains exactly two slashes —
one leading, one before the decimal — so there is exactly one path segment
after the authorize prefix. -/
theorem continueAuthorizationGrant_path_decimal (g : Int) :
    ContinueAuthorizationGrant.path g = "/authorize/" ++ String.mk (intRepr g)
  ∧ (ContinueAuthorizationGrant.path g).data.count (Char.ofNat 47) = 2 := by
  refine ⟨rfl, ?_⟩
  have hd : (ContinueAuthorizationGrant.path g).data = "/authorize/".data ++ intRepr g := rfl
  rw [hd, List.count_append, List.count_eq_zero.mpr (intRepr_no_slash g)]
  decide

/-- Counterexample to claim C9: the PATH constants of the CompatLogin and
CompatLogout simple routes contain a placeholder path parameter segment
beginning with a colon. -/
theorem compatLogin_path_param_cex :
    hasPathParam CompatLogin.PATH.data = true
  ∧ hasPathParam CompatLogout.PATH.data = true := by
  decide

/-- Claim C9 as amended: every Simple route has a compile-time fixed path
and no query payload, and building its URL never appends a question mark;
every Simple route except CompatLogin and CompatLogout has no placeholder
parameter segment in its path, while those two carry the literal version
placeholder that the route machinery never substitutes. -/
theorem simple_routes_fixed_paths :
    (∀ p : String, relativeUrl p none = p)
  ∧ simpleRoutePaths.all (fun p => !(p.data.contains (Char.ofNat 63))) = true
  ∧ simpleRoutePaths.filter (fun p => hasPathParam p.data)
      = [CompatLogin.PATH, CompatLogout.PATH]
  ∧ relativeUrl Healthcheck.PATH none = "/health" :=
  ⟨fun _ => rfl, by decide, by decide, rfl⟩

/-- Claim C10: converting an optional Continuation Action into Login,
Reauth or Register and reading the action back is the identity, and the
Default value of each carries no continuation, so its go_next resolves to
the Index path. -/
theorem fromOption_roundtrip_and_default :
    (∀ o : Option PostAuthAction, (Login.fromOption o).post_auth_action = o)
  ∧ (∀ o : Option PostAuthAction, (Reauth.fromOption o).post_auth_action = o)
  ∧ (∀ o : Option PostAuthAction, (Register.fromOption o).post_auth_action = o)
  ∧ Login.default.post_auth_action = none
  ∧ Reauth.default.post_auth_action = none
  ∧ Register.default.post_auth_action = none
  ∧ Login.default.go_next = "/"
  ∧ Reauth.default.go_next = "/"
  ∧ Register.default.go_next = "/" :=
  ⟨fun _ => rfl, fun _ => rfl, fun _ => rfl, rfl, rfl, rfl, rfl, rfl, rfl⟩
